/-
Verification of the sorted-spike-data loader and file codecs of
`ecephys_spike_sorting/common/utils.py`.

The Python functions are shallowly embedded as Lean definitions:

* numpy arrays of arbitrary rank are modelled as a shape (list of
  dimension sizes) together with a flat data list (`NdArray`);
* the 3-d template tensor and 2-d matrices, whose claims are about
  indexed entries and matrix products, are modelled with explicit
  dimension fields and a total entry function over rationals
  (floating-point values are modelled as exact rationals; the claims
  under study are structural, not about rounding);
* Python exceptions are modelled by the inductive `PyErr`; fallible
  operations return `Except PyErr _`.  `except OSError` in the source
  corresponds to the `is_OSError` predicate (FileNotFoundError and
  PermissionError are both subclasses of OSError in Python);
* on-disk text files read by `np.genfromtxt` are modelled, after
  whitespace tokenisation, as a list of rows of string tokens;
* the probe json document is modelled as an ordered association list
  from key strings to json values (`json.dump` writes the dict in
  insertion order; `json.load` restores a dict, i.e. key lookup).
-/
import Mathlib

open BigOperators

deriving instance DecidableEq for Except

/-- Python exception classes that the embedded code can raise or catch.
`fileNotFound`, `permissionError` and `otherOSError` are the
OSError-class conditions; `valueError`, `indexError` and `keyError`
are not OSError subclasses. -/
inductive PyErr where
  | fileNotFound
  | permissionError
  | otherOSError
  | valueError
  | indexError
  | keyError
  deriving DecidableEq, Repr

/-- `True` exactly for the exception classes caught by `except OSError:`
in Python: `FileNotFoundError` and `PermissionError` are subclasses of
`OSError`, while `ValueError`, `IndexError`, `KeyError` are not. -/
def is_OSError : PyErr → Bool
  | .fileNotFound => true
  | .permissionError => true
  | .otherOSError => true
  | .valueError => false
  | .indexError => false
  | .keyError => false

/-- Whether an `Except` computation finished without raising. -/
def isOk {ε α : Type _} : Except ε α → Bool
  | .ok _ => true
  | .error _ => false

/-- A numpy array of arbitrary rank: its shape and its flat (row-major)
data.  Only the claims about `np.squeeze` need the rank to be explicit,
so elements are kept flat. -/
structure NdArray (α : Type) where
  shape : List ℕ
  data : List α

/-- `np.squeeze`: removes every axis of size 1 from the shape; the flat
data is untouched. -/
def npSqueeze {α : Type} (a : NdArray α) : NdArray α :=
  ⟨a.shape.filter (fun d => d ≠ 1), a.data⟩

theorem npSqueeze_data {α : Type} (a : NdArray α) : (npSqueeze a).data = a.data := rfl

/-- A 2-d numpy array with explicit dimensions and a total entry
function; entries outside the dimension bounds are irrelevant to every
statement below. -/
structure Mat where
  rows : ℕ
  cols : ℕ
  entry : ℕ → ℕ → ℚ

/-- A 3-d numpy array indexed by (template id, time sample, channel). -/
structure Tensor3 where
  n : ℕ
  t : ℕ
  c : ℕ
  entry : ℕ → ℕ → ℕ → ℚ

/-- `templates[:, p:, :]` — drop the first `p` time samples of every
template.  Numpy basic slicing clamps at the end of the axis, which is
exactly truncated subtraction on `ℕ`. -/
def stripTemplates (tp : Tensor3) (p : ℕ) : Tensor3 :=
  ⟨tp.n, tp.t - p, tp.c, fun i t' ch => tp.entry i (p + t') ch⟩

/-- `np.dot` on 2-d arrays: standard matrix product when the inner
dimensions agree, `ValueError` otherwise. -/
def npDot (A B : Mat) : Except PyErr Mat :=
  if A.cols = B.rows then
    .ok ⟨A.rows, B.cols, fun i j => ∑ k in Finset.range A.cols, A.entry i k * B.entry k j⟩
  else .error .valueError

/-- `templates[i, :, :]` as a 2-d array (time × channel). -/
def sliceTemplate (tp : Tensor3) (i : ℕ) : Mat :=
  ⟨tp.t, tp.c, fun r ch => tp.entry i r ch⟩

/-- `unwhitened_temps[i, :, :] = m` — write a (time × channel) slice
into the accumulator tensor.  Numpy raises on a shape mismatch between
the right-hand side and the slot. -/
def setSlice (acc : Tensor3) (i : ℕ) (m : Mat) : Except PyErr Tensor3 :=
  if m.rows = acc.t ∧ m.cols = acc.c then
    .ok ⟨acc.n, acc.t, acc.c,
      fun i' r ch => if i' = i then m.entry r ch else acc.entry i' r ch⟩
  else .error .valueError

/-- One iteration of the unwhitening loop:
`unwhitened_temps[i,:,:] = np.dot(templates[i,:,:], unwhitening_mat)`. -/
def unwhitenStep (tp : Tensor3) (w : Mat) (acc : Except PyErr Tensor3) (i : ℕ) :
    Except PyErr Tensor3 := do
  let a ← acc
  let m ← npDot (sliceTemplate tp i) w
  setSlice a i m

/-- `unwhitened_temps = np.zeros(templates.shape)` followed by the loop
`for temp_idx in range(templates.shape[0]): ...`. -/
def unwhitenLoop (tp : Tensor3) (w : Mat) : Except PyErr Tensor3 :=
  (List.range tp.n).foldl (unwhitenStep tp w) (.ok ⟨tp.n, tp.t, tp.c, fun _ _ _ => 0⟩)

/-- Quality code → label, as in `write_cluster_group_tsv`:
0 → "unsorted", 1 → "good", anything else → "noise". -/
def qualityLabel (q : ℤ) : String :=
  if q = 0 then "unsorted" else if q = 1 then "good" else "noise"

/-- `write_cluster_group_tsv`, seen at the level of the whitespace
tokens of the produced file: a header row `cluster_id\tgroup` followed
by one row `str(ID)\tlabel` per cluster (the `pandas.DataFrame`
construction requires the two columns to have equal length; `zipWith`
realises the paired iteration of the source loop). -/
def write_cluster_group_tsv (IDs quality : List ℤ) : List (List String) :=
  ["cluster_id", "group"] ::
    List.zipWith (fun i q => [toString i, qualityLabel q]) IDs quality

/-- Decimal digits accumulated left to right; `none` on the first
non-digit character. -/
def digitsToNat (acc : ℕ) : List Char → Option ℕ
  | [] => some acc
  | c :: cs => if c.isDigit then digitsToNat (acc * 10 + (c.toNat - 48)) cs else none

/-- Python `int(token)` on one whitespace-split token: an optional
minus sign followed by at least one decimal digit; anything else
fails. -/
def pyStrToInt (s : String) : Option ℤ :=
  match s.data with
  | [] => none
  | '-' :: cs => if cs.isEmpty then none else (digitsToNat 0 cs).map (fun n => -(n : ℤ))
  | cs => (digitsToNat 0 cs).map (fun n => (n : ℤ))

/-- Parse every token of a column with Python `int(...)` semantics;
`astype('int')` raises `ValueError` as soon as one token fails. -/
def parseIdList : List String → Option (List ℤ)
  | [] => some []
  | s :: ss =>
    match pyStrToInt s, parseIdList ss with
    | some i, some is => some (i :: is)
    | _, _ => none

/-- `read_cluster_group_tsv` over the tokenised file:
`info = np.genfromtxt(filename, dtype='str')` builds a 2-d string array
only when the file has at least two rows of one uniform width (ragged
rows raise `ValueError`; a single row yields a 1-d array on which the
two-axis indexing below raises `IndexError`); then
`cluster_ids = info[1:,0].astype('int')` and
`cluster_quality = info[1:,1]` drop the first row unconditionally and
read columns 0 and 1 (fewer than 2 columns raises `IndexError`). -/
def read_cluster_group_tsv (rows : List (List String)) :
    Except PyErr (List ℤ × List String) :=
  match rows with
  | [] => .error .valueError
  | [_] => .error .indexError
  | r :: rest =>
    if rest.all (fun row => row.length = r.length) then
      if 2 ≤ r.length then
        match parseIdList (rest.map (fun row => row.getD 0 "")) with
        | some ids => .ok (ids, rest.map (fun row => row.getD 1 ""))
        | none => .error .valueError
      else .error .indexError
    else .error .valueError

/-- The state of the conventionally-named `cluster_group.tsv` file in a
sorting directory: absent (opening raises `FileNotFoundError`),
present but unreadable for some other reason (opening raises that
error, e.g. `PermissionError`), or present with a given tokenised
content. -/
inductive QualityFile where
  | absent
  | unreadable (e : PyErr)
  | present (rows : List (List String))

/-- The attempt `read_cluster_group_tsv(os.path.join(folder, 'cluster_group.tsv'))`. -/
def readQualityFile : QualityFile → Except PyErr (List ℤ × List String)
  | .absent => .error .fileNotFound
  | .unreadable e => .error e
  | .present rows => read_cluster_group_tsv rows

/-- `np.unique` on integer data: the distinct values in ascending
order. -/
def npUnique (l : List ℤ) : List ℤ :=
  List.insertionSort (· ≤ ·) l.dedup

/-- The synthesized fallback quality record of `load_kilosort_data`:
`cluster_ids = np.unique(spike_clusters)` and
`cluster_quality = ['unsorted'] * cluster_ids.size`. -/
def fallbackQuality (spike_clusters : List ℤ) : List ℤ × List String :=
  (npUnique spike_clusters,
   List.replicate (npUnique spike_clusters).length "unsorted")

/-- The `try: ... except OSError:` block of `load_kilosort_data`: read
the quality table; if reading raises an OSError-class condition,
synthesize the fallback record from the (already squeezed) cluster
assignments; any other exception propagates. -/
def resolveClusterQuality (qf : QualityFile) (spike_clusters : List ℤ) :
    Except PyErr (List ℤ × List String) :=
  match readQualityFile qf with
  | .ok res => .ok res
  | .error e => if is_OSError e then .ok (fallbackQuality spike_clusters) else .error e

/-- A json value as produced/consumed by the probe metadata codec:
either an array of numbers (`.tolist()` of a numpy vector) or a plain
integer scalar. -/
inductive JVal where
  | arr (l : List ℚ)
  | int (z : ℤ)
  deriving DecidableEq, Repr

/-- `write_probe_json`: `json.dump` of the literal dict, whose eight
keys appear in insertion order. -/
def write_probe_json (channels offset scaling mask : List ℚ)
    (surface_channel air_channel : ℤ) (vertical_pos horizontal_pos : List ℚ) :
    List (String × JVal) :=
  [("channel", .arr channels),
   ("offset", .arr offset),
   ("scaling", .arr scaling),
   ("mask", .arr mask),
   ("surface_channel", .int surface_channel),
   ("air_channel", .int air_channel),
   ("vertical_pos", .arr vertical_pos),
   ("horizontal_pos", .arr horizontal_pos)]

/-- `data['k']` on the parsed json dict: `KeyError` when absent. -/
def jlookup (doc : List (String × JVal)) (k : String) : Except PyErr JVal :=
  match doc.lookup k with
  | some v => .ok v
  | none => .error .keyError

/-- `read_probe_json`: parse the document and return
`(mask, offset, scaling, surface_channel, air_channel)` — the camera
keys are looked up in source order (scaling, mask, offset, surface,
air) and returned in the documented order. -/
def read_probe_json (doc : List (String × JVal)) :
    Except PyErr (JVal × JVal × JVal × JVal × JVal) := do
  let scaling ← jlookup doc "scaling"
  let mask ← jlookup doc "mask"
  let offset ← jlookup doc "offset"
  let surface ← jlookup doc "surface_channel"
  let air ← jlookup doc "air_channel"
  .ok (mask, offset, scaling, surface, air)

/-- The on-disk content of a Kilosort output directory, one field per
conventional file name read by `load_kilosort_data`.  The mandatory
`.npy` arrays are modelled as present (their absence is the Accessor's
`FileNotFoundError`, orthogonal to every claim below); the optional
master-clock and PC-feature arrays and the quality table carry their
presence explicitly. -/
structure KilosortFolder where
  spike_times : NdArray ℚ
  spike_times_master_clock : Option (NdArray ℚ)
  spike_clusters : NdArray ℤ
  amplitudes : NdArray ℚ
  templates : Tensor3
  whitening_mat_inv : Mat
  channel_map : NdArray ℤ
  pc_features : Option (NdArray ℚ)
  pc_feature_ind : Option (NdArray ℤ)
  cluster_group : QualityFile

/-- `np.load` of an optional file: `FileNotFoundError` when absent. -/
def fetch {α : Type} : Option α → Except PyErr α
  | none => .error .fileNotFound
  | some a => .ok a

/-- Step 1 of the loader: load `spike_times_master_clock.npy` when
`use_master_clock`, else `spike_times.npy`. -/
def spikeTimesFetch (f : KilosortFolder) (use_master_clock : Bool) :
    Except PyErr (NdArray ℚ) :=
  if use_master_clock then fetch f.spike_times_master_clock else .ok f.spike_times

/-- Step 3 of the loader: load the two PC-feature arrays when
`include_pcs` is set. -/
def pcFetch (f : KilosortFolder) (include_pcs : Bool) :
    Except PyErr (Option (NdArray ℚ × NdArray ℤ)) :=
  if include_pcs then do
    let a ← fetch f.pc_features
    let b ← fetch f.pc_feature_ind
    .ok (some (a, b))
  else .ok none

/-- `spike_times = spike_times / sample_rate` when conversion is
requested: an elementwise divide leaving the shape unchanged. -/
def convertTimes (a : NdArray ℚ) (sample_rate : ℚ) (convert_to_seconds : Bool) :
    NdArray ℚ :=
  if convert_to_seconds then ⟨a.shape, a.data.map (fun x => x / sample_rate)⟩ else a

/-- The bundle returned by `load_kilosort_data`; the two PC fields are
`none` exactly when `include_pcs` was off (the source then returns the
7-tuple instead of the 9-tuple). -/
structure LoaderOutput where
  spike_times : NdArray ℚ
  spike_clusters : NdArray ℤ
  amplitudes : NdArray ℚ
  unwhitened_temps : Tensor3
  channel_map : NdArray ℤ
  cluster_ids : List ℤ
  cluster_quality : List String
  pc_features : Option (NdArray ℚ)
  pc_feature_ind : Option (NdArray ℤ)

/-- Assembles the returned bundle from the intermediate values. -/
def mkOutput (f : KilosortFolder) (sample_rate : ℚ) (convert_to_seconds : Bool)
    (st : NdArray ℚ) (pcs : Option (NdArray ℚ × NdArray ℤ)) (u : Tensor3)
    (q : List ℤ × List String) : LoaderOutput :=
  { spike_times := convertTimes (npSqueeze st) sample_rate convert_to_seconds
    spike_clusters := npSqueeze f.spike_clusters
    amplitudes := f.amplitudes
    unwhitened_temps := u
    channel_map := f.channel_map
    cluster_ids := q.1
    cluster_quality := q.2
    pc_features := pcs.map Prod.fst
    pc_feature_ind := pcs.map Prod.snd }

/-- `load_kilosort_data`, following the source line by line: select and
load the arrays, strip the template zero padding, squeeze the spike
time and cluster arrays, optionally convert times to seconds, run the
unwhitening loop, resolve cluster quality with the OSError fallback,
and return the bundle.  Amplitudes and the channel map flow through
untouched. -/
def load_kilosort_data (f : KilosortFolder) (sample_rate : ℚ)
    (convert_to_seconds use_master_clock include_pcs : Bool)
    (template_zero_padding : ℕ) : Except PyErr LoaderOutput := do
  let st ← spikeTimesFetch f use_master_clock
  let pcs ← pcFetch f include_pcs
  let u ← unwhitenLoop (stripTemplates f.templates template_zero_padding)
            f.whitening_mat_inv
  let q ← resolveClusterQuality f.cluster_group (npSqueeze f.spike_clusters).data
  .ok (mkOutput f sample_rate convert_to_seconds st pcs u q)

/- ### Generic lemmas about the `Except` embedding -/

@[simp]
theorem ebind_ok {ε α β : Type _} (a : α) (f : α → Except ε β) :
    (Except.ok a >>= f : Except ε β) = f a := rfl

@[simp]
theorem ebind_err {ε α β : Type _} (e : ε) (f : α → Except ε β) :
    (Except.error e >>= f : Except ε β) = Except.error e := rfl

theorem except_bind_eq_ok {ε α β : Type _} {x : Except ε α} {f : α → Except ε β} {b : β}
    (h : (x >>= f) = Except.ok b) : ∃ a, x = Except.ok a ∧ f a = Except.ok b := by
  cases x with
  | ok a => exact ⟨a, rfl, h⟩
  | error e => rw [ebind_err] at h; exact Except.noConfusion h

theorem isOk_iff {ε α : Type _} {x : Except ε α} :
    isOk x = true ↔ ∃ a, x = Except.ok a := by
  cases x <;> simp [isOk]

/- ### The unwhitening loop -/

/-- The entry the source computes for slice `i` of the reconstructed
tensor: the (time × channel) matrix product of template slice `i` with
the unwhitening matrix. -/
def unwhitenedEntry (tp : Tensor3) (w : Mat) (i r ch : ℕ) : ℚ :=
  ∑ k in Finset.range tp.c, tp.entry i r k * w.entry k ch

theorem unwhiten_foldl_ok (tp : Tensor3) (w : Mat)
    (hr : w.rows = tp.c) (hc : w.cols = tp.c) :
    ∀ (l : List ℕ) (a : Tensor3), a.n = tp.n → a.t = tp.t → a.c = tp.c →
    ∃ u, l.foldl (unwhitenStep tp w) (Except.ok a) = Except.ok u ∧
      u.n = tp.n ∧ u.t = tp.t ∧ u.c = tp.c ∧
      (∀ i r ch, i ∈ l → u.entry i r ch = unwhitenedEntry tp w i r ch) ∧
      (∀ i r ch, i ∉ l → u.entry i r ch = a.entry i r ch) := by
  intro l
  induction l with
  | nil =>
    intro a h1 h2 h3
    exact ⟨a, rfl, h1, h2, h3, by simp, fun _ _ _ _ => rfl⟩
  | cons hd tl ih =>
    intro a h1 h2 h3
    have hdot : npDot (sliceTemplate tp hd) w =
        Except.ok ⟨tp.t, w.cols, fun i j =>
          ∑ k in Finset.range tp.c, tp.entry hd i k * w.entry k j⟩ := by
      unfold npDot sliceTemplate
      rw [if_pos hr.symm]
    have hset : setSlice a hd ⟨tp.t, w.cols, fun i j =>
        ∑ k in Finset.range tp.c, tp.entry hd i k * w.entry k j⟩ =
        Except.ok ⟨a.n, a.t, a.c, fun i' r ch =>
          if i' = hd then ∑ k in Finset.range tp.c, tp.entry hd r k * w.entry k ch
          else a.entry i' r ch⟩ := by
      unfold setSlice
      rw [if_pos ⟨h2.symm, by rw [hc, h3]⟩]
    have hstep : unwhitenStep tp w (Except.ok a) hd =
        Except.ok ⟨a.n, a.t, a.c, fun i' r ch =>
          if i' = hd then ∑ k in Finset.range tp.c, tp.entry hd r k * w.entry k ch
          else a.entry i' r ch⟩ := by
      unfold unwhitenStep
      rw [ebind_ok, hdot, ebind_ok, hset]
    rw [List.foldl_cons, hstep]
    obtain ⟨u, hu, hn, ht, hc', hin, hout⟩ :=
      ih ⟨a.n, a.t, a.c, fun i' r ch =>
          if i' = hd then ∑ k in Finset.range tp.c, tp.entry hd r k * w.entry k ch
          else a.entry i' r ch⟩ h1 h2 h3
    refine ⟨u, hu, hn, ht, hc', ?_, ?_⟩
    · intro i r ch hi
      rcases List.mem_cons.mp hi with hEq | hmem
      · by_cases hitl : i ∈ tl
        · exact hin i r ch hitl
        · have := hout i r ch hitl
          rw [this]
          simp only [hEq, if_pos rfl]
          rfl
      · exact hin i r ch hmem
    · intro i r ch hi
      have hne : i ≠ hd := fun hEq => hi (hEq ▸ List.mem_cons_self hd tl)
      have hitl : i ∉ tl := fun hm => hi (List.mem_cons_of_mem hd hm)
      have := hout i r ch hitl
      rw [this]
      simp [hne]

theorem unwhiten_foldl_err (tp : Tensor3) (w : Mat) (l : List ℕ) (e : PyErr) :
    l.foldl (unwhitenStep tp w) (Except.error e) = Except.error e := by
  induction l with
  | nil => rfl
  | cons hd tl ih =>
    rw [List.foldl_cons]
    have : unwhitenStep tp w (Except.error e) hd = Except.error e := rfl
    rw [this, ih]

/-- Success of the unwhitening loop, with its entries, whenever the
unwhitening matrix is channel-count × channel-count. -/
theorem unwhitenLoop_ok (tp : Tensor3) (w : Mat)
    (hr : w.rows = tp.c) (hc : w.cols = tp.c) :
    ∃ u, unwhitenLoop tp w = Except.ok u ∧
      u.n = tp.n ∧ u.t = tp.t ∧ u.c = tp.c ∧
      (∀ i r ch, i < tp.n → u.entry i r ch = unwhitenedEntry tp w i r ch) := by
  obtain ⟨u, hu, hn, ht, hc', hin, -⟩ :=
    unwhiten_foldl_ok tp w hr hc (List.range tp.n)
      ⟨tp.n, tp.t, tp.c, fun _ _ _ => 0⟩ rfl rfl rfl
  exact ⟨u, hu, hn, ht, hc', fun i r ch hi => hin i r ch (List.mem_range.mpr hi)⟩

/-- Failure of the unwhitening loop on the very first template when the
matrix rows do not match the channel count. -/
theorem unwhitenLoop_err (tp : Tensor3) (w : Mat)
    (hn : 1 ≤ tp.n) (hr : w.rows ≠ tp.c) :
    unwhitenLoop tp w = Except.error PyErr.valueError := by
  obtain ⟨m, hm⟩ := Nat.exists_eq_add_of_le hn
  unfold unwhitenLoop
  rw [hm]
  rw [show (1 + m) = m + 1 by omega]
  rw [List.range_succ_eq_map, List.foldl_cons]
  have hdot : npDot (sliceTemplate tp 0) w = Except.error PyErr.valueError := by
    unfold npDot sliceTemplate
    rw [if_neg (fun hEq => hr hEq.symm)]
  have hstep : ∀ a : Tensor3, unwhitenStep tp w (Except.ok a) 0 =
      Except.error PyErr.valueError := by
    intro a
    unfold unwhitenStep
    rw [ebind_ok, hdot, ebind_err]
  rw [hstep, unwhiten_foldl_err]

/- ### Inversion and introduction for the loader -/

theorem load_ok_inv (f : KilosortFolder) (sr : ℚ) (cts umc ipc : Bool) (p : ℕ)
    (out : LoaderOutput) (h : load_kilosort_data f sr cts umc ipc p = Except.ok out) :
    ∃ st pcs u q, spikeTimesFetch f umc = Except.ok st ∧
      pcFetch f ipc = Except.ok pcs ∧
      unwhitenLoop (stripTemplates f.templates p) f.whitening_mat_inv = Except.ok u ∧
      resolveClusterQuality f.cluster_group (npSqueeze f.spike_clusters).data = Except.ok q ∧
      out = mkOutput f sr cts st pcs u q := by
  unfold load_kilosort_data at h
  obtain ⟨st, h1, h⟩ := except_bind_eq_ok h
  obtain ⟨pcs, h2, h⟩ := except_bind_eq_ok h
  obtain ⟨u, h3, h⟩ := except_bind_eq_ok h
  obtain ⟨q, h4, h⟩ := except_bind_eq_ok h
  exact ⟨st, pcs, u, q, h1, h2, h3, h4, (Except.ok.injEq _ _ ▸ h).symm⟩

theorem load_eq_ok (f : KilosortFolder) (sr : ℚ) (cts umc ipc : Bool) (p : ℕ)
    (st : NdArray ℚ) (pcs : Option (NdArray ℚ × NdArray ℤ)) (u : Tensor3)
    (q : List ℤ × List String)
    (h1 : spikeTimesFetch f umc = Except.ok st)
    (h2 : pcFetch f ipc = Except.ok pcs)
    (h3 : unwhitenLoop (stripTemplates f.templates p) f.whitening_mat_inv = Except.ok u)
    (h4 : resolveClusterQuality f.cluster_group (npSqueeze f.spike_clusters).data =
      Except.ok q) :
    load_kilosort_data f sr cts umc ipc p = Except.ok (mkOutput f sr cts st pcs u q) := by
  unfold load_kilosort_data
  rw [h1, ebind_ok, h2, ebind_ok, h3, ebind_ok, h4, ebind_ok]

/- ### `np.unique` -/

theorem npUnique_sorted (l : List ℤ) : List.Sorted (· < ·) (npUnique l) := by
  have hperm : List.Perm (npUnique l) l.dedup := List.perm_insertionSort _ _
  exact (List.sorted_insertionSort _ _).lt_of_le (hperm.nodup_iff.mpr l.nodup_dedup)

theorem npUnique_mem (l : List ℤ) (x : ℤ) : x ∈ npUnique l ↔ x ∈ l := by
  unfold npUnique
  rw [List.mem_insertionSort, List.mem_dedup]

/- ### Concrete folders used by the counterexamples and witnesses -/

/-- A tiny but fully populated sorting directory: one template of two
post-padding time samples on two channels, two spikes of cluster 0
stored with a trailing singleton axis, and no quality table. -/
def exFolder : KilosortFolder :=
  { spike_times := ⟨[2, 1], [3, 4]⟩
    spike_times_master_clock := none
    spike_clusters := ⟨[2, 1], [0, 0]⟩
    amplitudes := ⟨[2], [5, 6]⟩
    templates := ⟨1, 3, 2, fun _ _ _ => 1⟩
    whitening_mat_inv := ⟨2, 2, fun i j => if i = j then 1 else 0⟩
    channel_map := ⟨[2], [0, 1]⟩
    pc_features := none
    pc_feature_ind := none
    cluster_group := QualityFile.absent }

/-- `exFolder` with a quality table that exists but cannot be opened:
reading it raises `PermissionError`. -/
def exFolderPerm : KilosortFolder :=
  { exFolder with cluster_group := QualityFile.unreadable PyErr.permissionError }

/-- `exFolder` with a quality table whose id column is not numeric:
reading it raises `ValueError`. -/
def exFolderBadTable : KilosortFolder :=
  { exFolder with cluster_group :=
      QualityFile.present [["cluster_id", "group"], ["a", "b"]] }

/-- `exFolder` with a single spike: both stored arrays have shape
`(1, 1)`. -/
def exFolderOneSpike : KilosortFolder :=
  { exFolder with spike_times := ⟨[1, 1], [3]⟩, spike_clusters := ⟨[1, 1], [0]⟩ }

/-- `exFolder` with an empty template tensor (zero templates over two
channels) and a 3 × 3 unwhitening matrix that matches no channel
count. -/
def exFolderNoTemplates : KilosortFolder :=
  { exFolder with templates := ⟨0, 3, 2, fun _ _ _ => 0⟩
                  whitening_mat_inv := ⟨3, 3, fun _ _ => 0⟩ }

/-- `exFolder` with one template on two channels but a 3 × 3
unwhitening matrix. -/
def exFolderMismatch : KilosortFolder :=
  { exFolder with whitening_mat_inv := ⟨3, 3, fun _ _ => 0⟩ }

/- ### Helper lemmas for the quality resolution -/

theorem resolveClusterQuality_err (qf : QualityFile) (cl : List ℤ) (e : PyErr)
    (hq : readQualityFile qf = Except.error e) (he : is_OSError e = false) :
    resolveClusterQuality qf cl = Except.error e := by
  unfold resolveClusterQuality
  rw [hq]
  simp [he]

theorem resolveClusterQuality_fallback (qf : QualityFile) (cl : List ℤ) (e : PyErr)
    (hq : readQualityFile qf = Except.error e) (he : is_OSError e = true) :
    resolveClusterQuality qf cl = Except.ok (fallbackQuality cl) := by
  unfold resolveClusterQuality
  rw [hq]
  simp [he]

theorem convertTimes_shape (a : NdArray ℚ) (sr : ℚ) (cts : Bool) :
    (convertTimes a sr cts).shape = a.shape := by
  cases cts <;> simp [convertTimes]

theorem convertTimes_data (a : NdArray ℚ) (sr : ℚ) (cts : Bool) :
    (convertTimes a sr cts).data =
      if cts then a.data.map (fun x => x / sr) else a.data := by
  cases cts <;> simp [convertTimes]

/- ### The claims -/

/-- C5: writing cluster ids [0,1,2] with quality codes [0,1,2] via
`write_cluster_group_tsv` and reading the produced file back via
`read_cluster_group_tsv` yields cluster ids [0,1,2] with labels
["unsorted","good","noise"] in that order (code 0 → "unsorted",
1 → "good", anything else → "noise"). -/
theorem C5_quality_round_trip :
    read_cluster_group_tsv (write_cluster_group_tsv [0, 1, 2] [0, 1, 2]) =
      Except.ok ([0, 1, 2], ["unsorted", "good", "noise"]) := by
  decide

/-- C6: stripping the zero padding is exact — for every raw template
tensor of time-length T and padding width p ≤ T, the stripped tensor
keeps the template and channel axes, has time-length T − p, and its
value at time index t (t < T − p) is the raw value at time index
p + t. -/
theorem C6_strip_exact (tp : Tensor3) (p : ℕ) (_hp : p ≤ tp.t) :
    (stripTemplates tp p).n = tp.n ∧ (stripTemplates tp p).t = tp.t - p ∧
    (stripTemplates tp p).c = tp.c ∧
    ∀ t', t' < tp.t - p → ∀ i ch,
      (stripTemplates tp p).entry i t' ch = tp.entry i (p + t') ch :=
  ⟨rfl, rfl, rfl, fun _ _ _ _ => rfl⟩

/-- Concrete tensor for the C6 witness. -/
def exT6 : Tensor3 := ⟨1, 3, 2, fun i t ch => ((i + t + ch : ℕ) : ℚ)⟩

/-- C6 witness: the strip theorem applied to a concrete 1 × 3 × 2
tensor with padding width 1. -/
theorem C6_witness :
    1 ≤ exT6.t ∧
    ((stripTemplates exT6 1).n = exT6.n ∧ (stripTemplates exT6 1).t = exT6.t - 1 ∧
     (stripTemplates exT6 1).c = exT6.c ∧
     ∀ t', t' < exT6.t - 1 → ∀ i ch,
       (stripTemplates exT6 1).entry i t' ch = exT6.entry i (1 + t') ch) :=
  ⟨by decide, C6_strip_exact exT6 1 (by decide)⟩

/-- C9 counterexample: a file with no header row at all is not
rejected — `read_cluster_group_tsv` silently treats the first data row
("0", "unsorted") as the header, drops it, and returns the remaining
row without any parse error, contradicting the claim that an absent
header format fails. -/
theorem C9_counterexample :
    read_cluster_group_tsv [["0", "unsorted"], ["1", "good"]] =
      Except.ok ([1], ["good"]) := by
  decide

/-- C9 amended: `read_cluster_group_tsv` parses a whitespace-delimited
table and returns integer cluster ids with their string labels in file
order, discarding the first row unconditionally (the header row is
never validated, so a missing header silently loses the first data
row); it fails with a parse error exactly when some id token of the
remaining rows cannot be coerced to integer. -/
theorem C9_amended (hd : List String) (rows : List (List String))
    (hw : ∀ row ∈ rows, row.length = hd.length) (h2 : 2 ≤ hd.length)
    (hne : rows ≠ []) :
    (∀ ids, parseIdList (rows.map (fun row => row.getD 0 "")) = some ids →
      read_cluster_group_tsv (hd :: rows) =
        Except.ok (ids, rows.map (fun row => row.getD 1 ""))) ∧
    (parseIdList (rows.map (fun row => row.getD 0 "")) = none →
      read_cluster_group_tsv (hd :: rows) = Except.error PyErr.valueError) := by
  cases rows with
  | nil => exact absurd rfl hne
  | cons r2 rest2 =>
    have hall : (r2 :: rest2).all (fun row => row.length = hd.length) = true := by
      rw [List.all_eq_true]
      intro x hx
      exact decide_eq_true (hw x hx)
    constructor
    · intro ids hids
      simp only [read_cluster_group_tsv]
      rw [if_pos hall, if_pos h2, hids]
    · intro hnone
      simp only [read_cluster_group_tsv]
      rw [if_pos hall, if_pos h2, hnone]

/-- C9 witness: the amended reader theorem applied to a well-formed
two-column file with a header row and one data row. -/
theorem C9_witness :
    (∀ ids, parseIdList ([["5", "good"]].map (fun row => row.getD 0 "")) = some ids →
      read_cluster_group_tsv (["cluster_id", "group"] :: [["5", "good"]]) =
        Except.ok (ids, [["5", "good"]].map (fun row => row.getD 1 ""))) ∧
    (parseIdList ([["5", "good"]].map (fun row => row.getD 0 "")) = none →
      read_cluster_group_tsv (["cluster_id", "group"] :: [["5", "good"]]) =
        Except.error PyErr.valueError) :=
  C9_amended ["cluster_id", "group"] [["5", "good"]]
    (by decide) (by decide) (by decide)

/-- C3: probe metadata round trip with the intentional writer/reader
asymmetry — for every record written by `write_probe_json` (eight
fields), `read_probe_json` of the document returns exactly the five
fields mask, offset, scaling, surface_channel, air_channel with the
written values, and the written document carries the eight keys in
order. -/
theorem C3_probe_round_trip (channels offset scaling mask : List ℚ)
    (surface_channel air_channel : ℤ) (vertical_pos horizontal_pos : List ℚ) :
    read_probe_json (write_probe_json channels offset scaling mask
        surface_channel air_channel vertical_pos horizontal_pos) =
      Except.ok (JVal.arr mask, JVal.arr offset, JVal.arr scaling,
        JVal.int surface_channel, JVal.int air_channel) ∧
    (write_probe_json channels offset scaling mask surface_channel air_channel
        vertical_pos horizontal_pos).map Prod.fst =
      ["channel", "offset", "scaling", "mask", "surface_channel", "air_channel",
       "vertical_pos", "horizontal_pos"] := by
  exact ⟨rfl, rfl⟩

/-- C1 counterexample: the claim says only a FileNotFound-class failure
of the quality-table read is replaced by the fallback and every other
read failure propagates; but with a quality table whose read raises
`PermissionError` (an OSError subclass that is not file-not-found) the
loader still succeeds and returns the synthesized fallback record
instead of propagating the error. -/
theorem C1_counterexample :
    PyErr.permissionError ≠ PyErr.fileNotFound ∧
    isOk (load_kilosort_data exFolderPerm 1 true false false 1) = true ∧
    (load_kilosort_data exFolderPerm 1 true false false 1).toOption.map
      (fun o => o.cluster_quality) = some ["unsorted"] :=
  ⟨by decide, by decide, by decide⟩

/-- C1 amended: the loader's cluster-quality fallback is taken exactly
when the quality-table read fails with an OSError-class condition
(file-not-found, permission error, or any other OSError); a read
failure that is not an OSError — e.g. the `ValueError` raised when the
id column cannot be coerced to integer — propagates to the caller
uncaught, provided the earlier mandatory steps succeeded. -/
theorem C1_amended (f : KilosortFolder) (sr : ℚ) (cts umc ipc : Bool) (p : ℕ)
    (st : NdArray ℚ) (pcs : Option (NdArray ℚ × NdArray ℤ)) (e : PyErr)
    (hst : spikeTimesFetch f umc = Except.ok st)
    (hpc : pcFetch f ipc = Except.ok pcs)
    (hu : isOk (unwhitenLoop (stripTemplates f.templates p) f.whitening_mat_inv) = true)
    (hq : readQualityFile f.cluster_group = Except.error e)
    (he : is_OSError e = false) :
    load_kilosort_data f sr cts umc ipc p = Except.error e := by
  obtain ⟨u, hu'⟩ := isOk_iff.mp hu
  unfold load_kilosort_data
  rw [hst, ebind_ok, hpc, ebind_ok, hu', ebind_ok,
    resolveClusterQuality_err _ _ e hq he, ebind_err]

/-- C1 witness: a quality table whose id column is the non-numeric
token "a" makes the read raise `ValueError`, which is not an OSError,
and the loader propagates exactly that error. -/
theorem C1_witness :
    readQualityFile exFolderBadTable.cluster_group = Except.error PyErr.valueError ∧
    is_OSError PyErr.valueError = false ∧
    load_kilosort_data exFolderBadTable 1 true false false 1 =
      Except.error PyErr.valueError :=
  ⟨by decide, by decide,
    C1_amended exFolderBadTable 1 true false false 1
      exFolderBadTable.spike_times none PyErr.valueError
      rfl rfl (by decide) (by decide) (by decide)⟩

/-- C4: when the quality table is absent, the returned cluster ids are
the distinct values of the (already squeezed) cluster-assignment array
in strictly ascending order, and the returned quality labels are
"unsorted" for every one of those ids, with matching length. -/
theorem C4_fallback_content (f : KilosortFolder) (sr : ℚ) (cts umc ipc : Bool) (p : ℕ)
    (st : NdArray ℚ) (pcs : Option (NdArray ℚ × NdArray ℤ))
    (hst : spikeTimesFetch f umc = Except.ok st)
    (hpc : pcFetch f ipc = Except.ok pcs)
    (hu : isOk (unwhitenLoop (stripTemplates f.templates p) f.whitening_mat_inv) = true)
    (habs : f.cluster_group = QualityFile.absent) :
    ∃ ids, (load_kilosort_data f sr cts umc ipc p).toOption.map
        (fun o => o.cluster_ids) = some ids ∧
      (load_kilosort_data f sr cts umc ipc p).toOption.map
        (fun o => o.cluster_quality) = some (List.replicate ids.length "unsorted") ∧
      List.Sorted (· < ·) ids ∧
      (∀ x, x ∈ ids ↔ x ∈ (npSqueeze f.spike_clusters).data) := by
  obtain ⟨u, hu'⟩ := isOk_iff.mp hu
  have hq : resolveClusterQuality f.cluster_group (npSqueeze f.spike_clusters).data =
      Except.ok (fallbackQuality (npSqueeze f.spike_clusters).data) := by
    refine resolveClusterQuality_fallback _ _ PyErr.fileNotFound ?_ rfl
    rw [habs]
    rfl
  have hload := load_eq_ok f sr cts umc ipc p st pcs u
    (fallbackQuality (npSqueeze f.spike_clusters).data) hst hpc hu' hq
  refine ⟨npUnique (npSqueeze f.spike_clusters).data, ?_, ?_, ?_, ?_⟩
  · rw [hload]; rfl
  · rw [hload]; rfl
  · exact npUnique_sorted _
  · exact fun x => npUnique_mem _ x

/-- C4 witness: the fallback-content theorem applied to the concrete
directory with no quality table. -/
theorem C4_witness :
    ∃ ids, (load_kilosort_data exFolder 1 true false false 1).toOption.map
        (fun o => o.cluster_ids) = some ids ∧
      (load_kilosort_data exFolder 1 true false false 1).toOption.map
        (fun o => o.cluster_quality) = some (List.replicate ids.length "unsorted") ∧
      List.Sorted (· < ·) ids ∧
      (∀ x, x ∈ ids ↔ x ∈ (npSqueeze exFolder.spike_clusters).data) :=
  C4_fallback_content exFolder 1 true false false 1
    exFolder.spike_times none rfl rfl (by decide) rfl

/-- C2: whenever the loader succeeds and the unwhitening matrix is
(channel × channel) for the template channel count, the returned
unwhitened tensor has exactly the shape of the stripped template
tensor, and every template slice is the matrix product of the stripped
slice with the unwhitening matrix (right multiplication). -/
theorem C2_unwhitening (f : KilosortFolder) (sr : ℚ) (cts umc ipc : Bool) (p : ℕ)
    (hok : isOk (load_kilosort_data f sr cts umc ipc p) = true)
    (hr : f.whitening_mat_inv.rows = f.templates.c)
    (hc : f.whitening_mat_inv.cols = f.templates.c) :
    ∃ u, (load_kilosort_data f sr cts umc ipc p).toOption.map
        (fun o => o.unwhitened_temps) = some u ∧
      u.n = (stripTemplates f.templates p).n ∧
      u.t = (stripTemplates f.templates p).t ∧
      u.c = (stripTemplates f.templates p).c ∧
      ∀ i r ch, i < (stripTemplates f.templates p).n →
        u.entry i r ch =
          unwhitenedEntry (stripTemplates f.templates p) f.whitening_mat_inv i r ch := by
  obtain ⟨out, hout⟩ := isOk_iff.mp hok
  obtain ⟨st, pcs, u, q, h1, h2, h3, h4, h5⟩ := load_ok_inv f sr cts umc ipc p out hout
  obtain ⟨u', hu', hn, ht, hc', hent⟩ :=
    unwhitenLoop_ok (stripTemplates f.templates p) f.whitening_mat_inv hr hc
  have huu : u = u' := Except.ok.inj (h3.symm.trans hu')
  refine ⟨u, ?_, ?_, ?_, ?_, ?_⟩
  · rw [hout, h5]; rfl
  · rw [huu]; exact hn
  · rw [huu]; exact ht
  · rw [huu]; exact hc'
  · intro i r ch hi
    rw [huu]
    exact hent i r ch hi

/-- C2 witness: the unwhitening theorem applied to the concrete
directory (one template, two channels, 2 × 2 identity unwhitening
matrix, padding width 1). -/
theorem C2_witness :
    ∃ u, (load_kilosort_data exFolder 2 true false false 1).toOption.map
        (fun o => o.unwhitened_temps) = some u ∧
      u.n = (stripTemplates exFolder.templates 1).n ∧
      u.t = (stripTemplates exFolder.templates 1).t ∧
      u.c = (stripTemplates exFolder.templates 1).c ∧
      ∀ i r ch, i < (stripTemplates exFolder.templates 1).n →
        u.entry i r ch =
          unwhitenedEntry (stripTemplates exFolder.templates 1)
            exFolder.whitening_mat_inv i r ch :=
  C2_unwhitening exFolder 2 true false false 1 (by decide) (by decide) (by decide)

/-- C7 counterexample: with an empty template tensor (zero templates)
over two channels and a 3 × 3 unwhitening matrix — a genuine dimension
mismatch — the per-template loop body never executes, so the loader
returns a result instead of failing loudly. -/
theorem C7_counterexample :
    exFolderNoTemplates.whitening_mat_inv.rows ≠ exFolderNoTemplates.templates.c ∧
    isOk (load_kilosort_data exFolderNoTemplates 1 true false false 1) = true :=
  ⟨by decide, by decide⟩

/-- C7 amended: whenever at least one template is present, an
unwhitening matrix whose dimension does not equal the template channel
count makes the loader fail (the first `np.dot` raises), never
returning a truncated or padded reconstruction; with zero templates the
mismatch goes undetected. -/
theorem C7_amended (f : KilosortFolder) (sr : ℚ) (cts umc ipc : Bool) (p : ℕ)
    (hn : 1 ≤ f.templates.n)
    (hr : f.whitening_mat_inv.rows ≠ f.templates.c) :
    isOk (load_kilosort_data f sr cts umc ipc p) = false := by
  unfold load_kilosort_data
  cases hst : spikeTimesFetch f umc with
  | error e => rfl
  | ok st =>
    rw [ebind_ok]
    cases hpc : pcFetch f ipc with
    | error e => rfl
    | ok pcs =>
      rw [ebind_ok,
        unwhitenLoop_err (stripTemplates f.templates p) f.whitening_mat_inv hn hr,
        ebind_err]
      rfl

/-- C7 witness: one template on two channels against a 3 × 3
unwhitening matrix — the loader fails. -/
theorem C7_witness :
    1 ≤ exFolderMismatch.templates.n ∧
    exFolderMismatch.whitening_mat_inv.rows ≠ exFolderMismatch.templates.c ∧
    isOk (load_kilosort_data exFolderMismatch 1 true false false 1) = false :=
  ⟨by decide, by decide,
    C7_amended exFolderMismatch 1 true false false 1 (by decide) (by decide)⟩

/-- C8 counterexample: for a single spike the stored arrays have shape
(1, 1), and `np.squeeze` collapses both singleton axes, so the loader
returns zero-dimensional scalars — not one-dimensional sequences of
length 1 as the claim states. -/
theorem C8_counterexample :
    exFolderOneSpike.spike_times.shape = [1, 1] ∧
    exFolderOneSpike.spike_clusters.shape = [1, 1] ∧
    (load_kilosort_data exFolderOneSpike 1 false false false 1).toOption.map
      (fun o => o.spike_times.shape) = some [] ∧
    (load_kilosort_data exFolderOneSpike 1 false false false 1).toOption.map
      (fun o => o.spike_clusters.shape) = some [] :=
  ⟨rfl, rfl, by decide, by decide⟩

/-- C8 amended: for stored spike-time and cluster-assignment arrays of
shape (N, 1) and (M, 1) with N ≠ 1 and M ≠ 1, the loader returns
one-dimensional sequences of length N resp. M whose element values are
unchanged, apart from the optional division of spike times by the
sample rate; when the leading dimension is 1, squeezing yields a
zero-dimensional scalar instead (see the counterexample). -/
theorem C8_amended (f : KilosortFolder) (sr : ℚ) (cts umc ipc : Bool) (p : ℕ)
    (st : NdArray ℚ) (N M : ℕ)
    (hok : isOk (load_kilosort_data f sr cts umc ipc p) = true)
    (hst : spikeTimesFetch f umc = Except.ok st)
    (hN : st.shape = [N, 1]) (hN1 : N ≠ 1) (hNlen : st.data.length = N)
    (hM : f.spike_clusters.shape = [M, 1]) (hM1 : M ≠ 1)
    (hMlen : f.spike_clusters.data.length = M) :
    (load_kilosort_data f sr cts umc ipc p).toOption.map
      (fun o => o.spike_times.shape) = some [N] ∧
    (load_kilosort_data f sr cts umc ipc p).toOption.map
      (fun o => o.spike_times.data) =
        some (if cts then st.data.map (fun x => x / sr) else st.data) ∧
    (load_kilosort_data f sr cts umc ipc p).toOption.map
      (fun o => o.spike_times.data.length) = some N ∧
    (load_kilosort_data f sr cts umc ipc p).toOption.map
      (fun o => o.spike_clusters.shape) = some [M] ∧
    (load_kilosort_data f sr cts umc ipc p).toOption.map
      (fun o => o.spike_clusters.data) = some f.spike_clusters.data ∧
    (load_kilosort_data f sr cts umc ipc p).toOption.map
      (fun o => o.spike_clusters.data.length) = some M := by
  obtain ⟨out, hout⟩ := isOk_iff.mp hok
  obtain ⟨st', pcs, u, q, h1, h2, h3, h4, h5⟩ := load_ok_inv f sr cts umc ipc p out hout
  have hst' : st' = st := Except.ok.inj (h1.symm.trans hst)
  rw [hst'] at h5
  have hsqN : (npSqueeze st).shape = [N] := by
    show List.filter (fun d => decide (d ≠ 1)) st.shape = [N]
    rw [hN]
    simp [hN1]
  have hsqM : (npSqueeze f.spike_clusters).shape = [M] := by
    show List.filter (fun d => decide (d ≠ 1)) f.spike_clusters.shape = [M]
    rw [hM]
    simp [hM1]
  rw [hout, h5]
  refine ⟨?_, ?_, ?_, ?_, ?_, ?_⟩
  · show some (convertTimes (npSqueeze st) sr cts).shape = some [N]
    rw [convertTimes_shape, hsqN]
  · show some (convertTimes (npSqueeze st) sr cts).data =
      some (if cts then st.data.map (fun x => x / sr) else st.data)
    rw [convertTimes_data, npSqueeze_data]
  · show some (convertTimes (npSqueeze st) sr cts).data.length = some N
    rw [convertTimes_data, npSqueeze_data]
    cases cts <;> simp [hNlen]
  · show some (npSqueeze f.spike_clusters).shape = some [M]
    rw [hsqM]
  · rfl
  · show some (npSqueeze f.spike_clusters).data.length = some M
    rw [npSqueeze_data, hMlen]

/-- C8 witness: the amended squeeze theorem applied to the concrete
directory, whose stored arrays have shape (2, 1). -/
theorem C8_witness :
    (load_kilosort_data exFolder 1 true false false 1).toOption.map
      (fun o => o.spike_times.shape) = some [2] ∧
    (load_kilosort_data exFolder 1 true false false 1).toOption.map
      (fun o => o.spike_times.data) =
        some (if true then exFolder.spike_times.data.map (fun x => x / 1)
              else exFolder.spike_times.data) ∧
    (load_kilosort_data exFolder 1 true false false 1).toOption.map
      (fun o => o.spike_times.data.length) = some 2 ∧
    (load_kilosort_data exFolder 1 true false false 1).toOption.map
      (fun o => o.spike_clusters.shape) = some [2] ∧
    (load_kilosort_data exFolder 1 true false false 1).toOption.map
      (fun o => o.spike_clusters.data) = some exFolder.spike_clusters.data ∧
    (load_kilosort_data exFolder 1 true false false 1).toOption.map
      (fun o => o.spike_clusters.data.length) = some 2 :=
  C8_amended exFolder 1 true false false 1 exFolder.spike_times 2 2
    (by decide) rfl rfl (by decide) rfl rfl (by decide) rfl

/-- C10: on every successful invocation the amplitudes and channel-map
components of the returned bundle are exactly the arrays loaded from
disk, untransformed. -/
theorem C10_passthrough (f : KilosortFolder) (sr : ℚ) (cts umc ipc : Bool) (p : ℕ)
    (hok : isOk (load_kilosort_data f sr cts umc ipc p) = true) :
    (load_kilosort_data f sr cts umc ipc p).toOption.map
      (fun o => o.amplitudes) = some f.amplitudes ∧
    (load_kilosort_data f sr cts umc ipc p).toOption.map
      (fun o => o.channel_map) = some f.channel_map := by
  obtain ⟨out, hout⟩ := isOk_iff.mp hok
  obtain ⟨st, pcs, u, q, h1, h2, h3, h4, h5⟩ := load_ok_inv f sr cts umc ipc p out hout
  rw [hout, h5]
  exact ⟨rfl, rfl⟩

/-- C10 witness: the passthrough theorem applied to the concrete
directory. -/
theorem C10_witness :
    (load_kilosort_data exFolder 1 true false false 1).toOption.map
      (fun o => o.amplitudes) = some exFolder.amplitudes ∧
    (load_kilosort_data exFolder 1 true false false 1).toOption.map
      (fun o => o.channel_map) = some exFolder.channel_map :=
  C10_passthrough exFolder 1 true false false 1 (by decide)
